import Mathlib

/-!
Verification development for the youshusearch chat-bot plugin: a shallow
embedding of its multi-source book-search adapters, pagination/index
resolver, command handlers and session state, together with proofs of the
behavioural properties stated about them.

The embedding is written from the Python sources (`main.py`,
`sources/uaa_source.py`, `sources/youshu_source.py`,
`sources/qidian_source.py`).  Network and HTML/JSON parsing effects are
abstracted as oracle parameters: a command or adapter takes a function
describing what each upstream request would return, and the embedding
reproduces the source's control flow over those outcomes.
-/

namespace Youshu

/-! ## Canonical data model

Modelled from the spec: the `Book` and `SearchResult` dataclasses are
imported by the adapters from a module not present in the repository
snapshot; their fields follow §3 of the spec (all fields optional except
`id`).  Only the fields the verified claims mention are carried — the
`reviews` list, which no claim touches, is omitted. -/

structure Book where
  id : String
  title : Option String := none
  author : Option String := none
  score : Option String := none
  scorer : Option String := none
  status : Option String := none
  platform : Option String := none
  category : Option String := none
  categories : List String := []
  tags : List String := []
  word_count : Option String := none
  meat_ratio : Option String := none
  popularity : Option String := none
  update_time : Option String := none
  last_chapter : Option String := none
  synopsis : Option String := none
  link : Option String := none
  image_url : Option String := none
  deriving Repr, DecidableEq, Inhabited

structure SearchResult where
  books : List Book
  total_pages : Nat
  current_page : Nat
  deriving Repr, DecidableEq

/-! ## Pagination / index resolver

From `main.py`: the hs command uses `results_per_page = 20`
(lines 253-255); the ys command uses
`results_per_page = 20 if self.api == 2 else 15` (line 648), computing
`page_to_fetch = (item_index - 1) // results_per_page + 1` (line 654) and
`index_on_page = (item_index - 1) % results_per_page` (line 687). -/

def hs_results_per_page : Nat := 20

def ys_results_per_page (api : Nat) : Nat := if api = 2 then 20 else 15

def resolve (P N : Nat) : Nat × Nat := ((N - 1) / P + 1, (N - 1) % P)

def hs_resolve (N : Nat) : Nat × Nat := resolve hs_results_per_page N

def ys_resolve (api N : Nat) : Nat × Nat := resolve (ys_results_per_page api) N

/-- The global item number of the book at `offset` (0-based) on `page`
(1-based), for page size `P`: the inverse direction of `resolve`. -/
def numOf (P page offset : Nat) : Nat := page * P - P + offset + 1

/-! ## UAA (hs) adapter — `sources/uaa_source.py`

The search endpoint returns JSON; the raw per-book dict keys used are
`id`, `title`, `authors`, `score`.  `id` is an integer in the JSON
(`str()` is applied on use); `score` is numeric in the JSON and is
modelled here by its already-stringified form, since every use point
applies `str()` to it. -/

structure HsRawBook where
  id : Option Nat := none
  title : Option String := none
  authors : Option String := none
  score : Option String := none
  deriving Repr, DecidableEq, Inhabited

/-- Outcome of the hs search HTTP call as the adapter sees it:
`fail` models any raised exception (timeout, connection error, non-2xx
via `raise_for_status`, JSON decode failure); `jsonOther` models a
response whose `result` is not `"success"` or that lacks `"model"`;
`jsonOk` carries `model["data"]` and `model["totalPage"]`. -/
inductive HsSearchResponse where
  | fail
  | jsonOther
  | jsonOk (data : List HsRawBook) (totalPage : Nat)
  deriving Repr, DecidableEq

/-- `uaa_source.py` lines 48-55: the Book built for one raw search hit.
Missing keys fall back to the literal defaults in the source
(`'未知书籍'`, `'未知作者'`, `'暂无'`); `id=str(raw_book.get('id', ''))`. -/
def UaaSource.rawToBook (rb : HsRawBook) : Book :=
  { id := match rb.id with | some n => toString n | none => ""
    title := some (rb.title.getD "未知书籍")
    author := some (rb.authors.getD "未知作者")
    score := some (rb.score.getD "暂无") }

/-- `UaaSource.search` (`uaa_source.py` lines 25-63). -/
def UaaSource.search (page : Nat) (resp : HsSearchResponse) : Option SearchResult :=
  match resp with
  | .fail => none
  | .jsonOther => none
  | .jsonOk data totalPage =>
      some { books := data.map UaaSource.rawToBook
             total_pages := totalPage
             current_page := page }

/-- The parsed-field dict built by `UaaSource.get_book_details`
(`uaa_source.py` lines 74-133).  `title`, `author`, `status`, `score` and
`intro` are always present, with the `clean_text` default `'无'`; the
fields extracted from the `props_box` block and the update/chapter lines
default to `None` when their regex (or the enclosing block) fails. -/
structure HsNovelInfo where
  title : String := "无"
  author : String := "无"
  status : String := "无"
  score : String := "无"
  intro : String := "无"
  tags : List String := []
  categories : List String := []
  latest_chapter : Option String := none
  update_time : Option String := none
  meat_ratio : Option String := none
  word_count : Option String := none
  popularity : Option String := none
  deriving Repr, DecidableEq, Inhabited

/-- Outcome of the hs detail-page fetch+parse: `fail` models any raised
exception (caught at lines 186-188, returning `None`); `parsed` carries
the extracted field dict. -/
inductive HsDetailOutcome where
  | fail
  | parsed (info : HsNovelInfo)
  deriving Repr, DecidableEq

/-- `UaaSource.get_book_details` (`uaa_source.py` lines 65-188), Book
construction at lines 166-182: `title`/`author`/`score`/`status`/
`synopsis` are normalized from the `'无'` sentinel to `None`;
`category` is `categories[0]` when nonempty; `word_count`, `meat_ratio`,
`popularity`, `update_time`, `last_chapter` are passed through as
parsed. -/
def UaaSource.get_book_details (book_id : String) (d : HsDetailOutcome) : Option Book :=
  match d with
  | .fail => none
  | .parsed info =>
      some { id := book_id
             title := if info.title = "无" then none else some info.title
             author := if info.author = "无" then none else some info.author
             score := if info.score = "无" then none else some info.score
             status := if info.status = "无" then none else some info.status
             category := info.categories.head?
             categories := info.categories
             tags := info.tags
             word_count := info.word_count
             meat_ratio := info.meat_ratio
             popularity := info.popularity
             synopsis := if info.intro = "无" then none else some info.intro
             update_time := info.update_time
             last_chapter := info.latest_chapter }

/-! ## Youshu (ys) adapter — `sources/youshu_source.py`

The youshu.me strategy scrapes a server-rendered page.  The page shape
is abstracted by `YsSearchPage`: a result-list page (with the parsed
total-result count and one raw record per `c_row` block, each record
holding exactly the fields whose regexes matched), a direct-jump detail
page on which both a title and a book id were recovered, or any other
page (including a detail page missing one of the two). -/

structure YsRawBook where
  id : Option Nat := none
  novel_name : Option String := none
  author_name : Option String := none
  score : Option String := none
  scorer : Option String := none
  deriving Repr, DecidableEq, Inhabited

inductive YsSearchPage where
  | listPage (total_results : Nat) (blocks : List YsRawBook)
  | detailPage (novel_name : String) (novel_id : Nat)
  | otherPage
  deriving Repr, DecidableEq

/-- The pure tail of `YoushuMeStrategy.search`
(`youshu_source.py` lines 196-249): a list page keeps only blocks where
both `id` and `novel_name` were recovered and computes
`total_pages = ceil(total/20)` when `total > 0`, else `1`; a direct-jump
detail page yields a single-record result with `total_pages = 1`; any
other page yields `([], 0)`. -/
def YoushuMeStrategy.parsePage (pg : YsSearchPage) : List YsRawBook × Nat :=
  match pg with
  | .listPage total blocks =>
      (blocks.filter (fun b => b.id.isSome && b.novel_name.isSome),
       if total > 0 then (total + 20 - 1) / 20 else 1)
  | .detailPage name nid => ([{ id := some nid, novel_name := some name }], 1)
  | .otherPage => ([], 0)

/-- `YoushuMeStrategy.search` (`youshu_source.py` lines 180-253): a
raised transport exception (modelled by `none`) is caught and converted
to `None`; otherwise the fetched page is parsed. -/
def YoushuMeStrategy.search (resp : Option YsSearchPage) : Option (List YsRawBook × Nat) :=
  resp.map YoushuMeStrategy.parsePage

/-- `youshu_source.py` lines 379-385: the Book built for one raw search
hit.  The ys raw dicts carry `novel_name`/`author_name` (never `title`/
`authors`, which are the fallback keys for hs-shaped dicts), so the
missing-key defaults are the literals `'未知书籍'`, `'未知作者'`, `'N/A'`,
`'0'`; `id=str(raw_book.get('id', ''))`. -/
def YoushuSource.rawToBook (rb : YsRawBook) : Book :=
  { id := match rb.id with | some n => toString n | none => ""
    title := some (rb.novel_name.getD "未知书籍")
    author := some (rb.author_name.getD "未知作者")
    score := some (rb.score.getD "N/A")
    scorer := some (rb.scorer.getD "0") }

/-- `YoushuSource.search` (`youshu_source.py` lines 369-388), with the
youshu.me strategy: `if search_result is None or not search_result[0]:
return None` — a strategy failure *and* a zero-hit strategy result are
both mapped to `None`. -/
def YoushuSource.search (page : Nat) (resp : Option YsSearchPage) : Option SearchResult :=
  match YoushuMeStrategy.search resp with
  | none => none
  | some (raw_books, total_pages) =>
      if raw_books.isEmpty then none
      else some { books := raw_books.map YoushuSource.rawToBook
                  total_pages := total_pages
                  current_page := page }

/-- The parsed-field dict built by either ys detail strategy
(`youshu_source.py` lines 79-167 and 270-346), viewed through `.get`:
every field is optional (the Ypshuo strategy never sets `platform` or
`category`; set fields may still carry the `'无'` default). -/
structure YsNovelInfo where
  novel_name : Option String := none
  author_name : Option String := none
  score : Option String := none
  scorer : Option String := none
  status : Option String := none
  platform : Option String := none
  category : Option String := none
  update_time_str : Option String := none
  synopsis : Option String := none
  link : Option String := none
  tags : List String := []
  word_number : Option String := none
  image_url : Option String := none
  deriving Repr, DecidableEq, Inhabited

/-- Outcome of a ys detail strategy call: `fail` models the exception
handler that returns the empty dict `{}` (falsy), `parsed` a populated
dict. -/
inductive YsDetails where
  | fail
  | parsed (info : YsNovelInfo)
  deriving Repr, DecidableEq

/-- `clean_val` (`youshu_source.py` lines 397-400): maps the placeholder
strings to `None` and passes everything else (including an absent value)
through. -/
def clean_val (v : Option String) : Option String :=
  match v with
  | none => none
  | some s => if s = "无" ∨ s = "未知" ∨ s = "N/A" ∨ s = "0" ∨ s = "" then none else some s

/-- An upstream optional field value that is either missing or one of
the placeholder strings `clean_val` recognizes. -/
def missingOrSentinel (v : Option String) : Prop :=
  v = none ∨ v = some "无" ∨ v = some "未知" ∨ v = some "N/A" ∨ v = some "0" ∨ v = some ""

/-- `YoushuSource.get_book_details` (`youshu_source.py` lines 390-419):
an empty or `'无'`-named dict yields `None`; otherwise each textual
optional field goes through `clean_val`, while `title`, `tags`,
`word_number` and `image_url` are passed through unmodified. -/
def YoushuSource.get_book_details (book_id : String) (d : YsDetails) : Option Book :=
  match d with
  | .fail => none
  | .parsed info =>
      if info.novel_name.getD "无" = "无" then none
      else
        some { id := book_id
               title := info.novel_name
               author := clean_val info.author_name
               score := clean_val info.score
               scorer := clean_val info.scorer
               status := clean_val info.status
               platform := clean_val info.platform
               category := clean_val info.category
               tags := info.tags
               word_count := info.word_number
               update_time := clean_val info.update_time_str
               synopsis := clean_val info.synopsis
               link := clean_val info.link
               image_url := info.image_url }

/-! ## Command handlers — `main.py`

The `/hs` and `/ys` handlers are embedded from the point after argument
parsing: `book_name` (nonempty), `page_to_list` (defaulting to 1, a `0`
argument is mapped to 1 by the parser) and `item_index` (a `0` argument
is mapped to `None` by the parser).  The network is abstracted by a
`fetch` oracle mapping (keyword, page) to what the page-search helper
(`_perform_hs_search` / `_perform_search`) would return.  A `CommandRun`
records the user-visible outcome, every search request issued, and the
id handed to the detail fetcher, if any. -/

inductive CmdOutcome where
  | zeroIndexMsg
  | notFound
  | notFoundOnPage (page : Nat)
  | pageRejected (page maxPages : Nat)
  | listShown (startNum count : Nat)
  | itemMissing (n page : Nat)
  | noIdMsg
  | detailShown (novelId : String)
  deriving Repr, DecidableEq

structure CommandRun where
  outcome : CmdOutcome
  searched : List (String × Nat)
  detailFetched : Option String
  deriving Repr, DecidableEq

/-- Python truthiness of `novel_id` at `main.py` lines 272, 666, 693:
a missing id and the id `0` are both rejected. -/
def pyTruthyId (v : Option Nat) : Option Nat :=
  match v with
  | some (n + 1) => some (n + 1)
  | _ => none

/-- The id-extraction tail of a selection (`main.py` lines 270-277 and
691-697): truthiness-check the selected raw record's id, then fetch the
detail page. -/
def idStep (b : YsRawBook) (searched : List (String × Nat)) : CommandRun :=
  match pyTruthyId b.id with
  | none => { outcome := .noIdMsg, searched := searched, detailFetched := none }
  | some i =>
      { outcome := .detailShown (toString i), searched := searched
        detailFetched := some (toString i) }

/-- The select-by-index tail shared by both handlers (`main.py` lines
266-277 and 687-697): bounds-check `index_on_page` against the fetched
list, then hand the selected record to `idStep`. -/
def selectStep (search_results : List YsRawBook) (n index_on_page page : Nat)
    (searched : List (String × Nat)) : CommandRun :=
  match search_results[index_on_page]? with
  | none => { outcome := .itemMissing n page, searched := searched, detailFetched := none }
  | some b => idStep b searched

/-- `hs_search_command` (`main.py` lines 188-280) from the fetch of
`page_to_list` onward, with hs raw records coerced into the shared
`YsRawBook` record shape (only `id` matters to the control flow).  When
an item index is given, the initially fetched page is `page_to_list`;
if the computed `correct_page` differs, the same keyword is re-fetched
at `correct_page` before indexing (lines 257-264). -/
def hsCommand (fetch : String → Nat → Option (List YsRawBook × Nat))
    (book_name : String) (page_to_list : Nat) (item_index : Option Nat) : CommandRun :=
  let page_to_fetch := page_to_list
  match fetch book_name page_to_fetch with
  | none =>
      { outcome := .notFound, searched := [(book_name, page_to_fetch)], detailFetched := none }
  | some (search_results, max_pages) =>
      if search_results.isEmpty then
        { outcome := .notFound, searched := [(book_name, page_to_fetch)], detailFetched := none }
      else if page_to_fetch > max_pages ∧ max_pages > 0 then
        { outcome := .pageRejected page_to_fetch max_pages
          searched := [(book_name, page_to_fetch)], detailFetched := none }
      else
        match item_index with
        | none =>
            { outcome := .listShown ((page_to_fetch - 1) * hs_results_per_page + 1)
                search_results.length
              searched := [(book_name, page_to_fetch)], detailFetched := none }
        | some n =>
            let index_on_page := (hs_resolve n).2
            let correct_page := (hs_resolve n).1
            if correct_page ≠ page_to_fetch then
              match fetch book_name correct_page with
              | none =>
                  { outcome := .notFoundOnPage correct_page
                    searched := [(book_name, page_to_fetch), (book_name, correct_page)]
                    detailFetched := none }
              | some (results2, _) =>
                  if results2.isEmpty then
                    { outcome := .notFoundOnPage correct_page
                      searched := [(book_name, page_to_fetch), (book_name, correct_page)]
                      detailFetched := none }
                  else
                    selectStep results2 n index_on_page correct_page
                      [(book_name, page_to_fetch), (book_name, correct_page)]
            else
              selectStep search_results n index_on_page page_to_fetch
                [(book_name, page_to_fetch)]

/-- `youshu_search_command` (`main.py` lines 622-700) from line 647
onward.  With an item index the fetched page is computed up front by the
resolver (line 654); a single-hit single-page keyword search without an
index jumps straight to the detail view (lines 663-671). -/
def ysCommand (api : Nat) (fetch : String → Nat → Option (List YsRawBook × Nat))
    (book_name : String) (page_to_list : Nat) (item_index : Option Nat) : CommandRun :=
  if item_index = some 0 then
    { outcome := .zeroIndexMsg, searched := [], detailFetched := none }
  else
    let page_to_fetch := match item_index with
      | some n => (ys_resolve api n).1
      | none => page_to_list
    match fetch book_name page_to_fetch with
    | none =>
        { outcome := .notFound, searched := [(book_name, page_to_fetch)], detailFetched := none }
    | some (search_results, max_pages) =>
        if search_results.isEmpty then
          { outcome := .notFound, searched := [(book_name, page_to_fetch)]
            detailFetched := none }
        else if page_to_fetch > max_pages ∧ max_pages > 0 then
          { outcome := .pageRejected page_to_fetch max_pages
            searched := [(book_name, page_to_fetch)], detailFetched := none }
        else
          match item_index with
          | none =>
              if search_results.length = 1 ∧ max_pages = 1 then
                idStep search_results.headI [(book_name, page_to_fetch)]
              else
                { outcome := .listShown
                    ((page_to_fetch - 1) * ys_results_per_page api + 1) search_results.length
                  searched := [(book_name, page_to_fetch)], detailFetched := none }
          | some n =>
              selectStep search_results n (ys_resolve api n).2 page_to_fetch
                [(book_name, page_to_fetch)]

/-! ## Random-novel command — `main.py` lines 702-737 -/

/-- What one detail fetch of a random id would do, as classified by the
handler's `except` clauses: a 404 `ClientResponseError` and a
`ValueError`/`TimeoutError` are retried; a non-404 HTTP error and any
other exception stop the loop with an error message; success renders the
detail view. -/
inductive FetchOutcome where
  | success
  | http404
  | httpError (code : Nat)
  | retryableError
  | unknownError
  deriving Repr, DecidableEq

inductive RandomOutcome where
  | noLatestId
  | shown (novelId : Nat)
  | httpErrorMsg (code : Nat)
  | unknownErrorMsg
  | exhausted
  deriving Repr, DecidableEq

def FetchOutcome.isRetry : FetchOutcome → Bool
  | .http404 => true
  | .retryableError => true
  | _ => false

/-- The retry loop of `youshu_random_command` (lines 715-736): on
attempt `k` (0-based) the id `draws k` — modelling
`random.randint(1, latest_id)` — is tried; at most `fuel` further
attempts are made.  Returns the outcome and the list of ids tried. -/
def randomAttempts (draws : Nat → Nat) (fetch : Nat → FetchOutcome) :
    Nat → Nat → RandomOutcome × List Nat
  | _, 0 => (.exhausted, [])
  | k, fuel + 1 =>
      let rid := draws k
      match fetch rid with
      | .success => (.shown rid, [rid])
      | .http404 =>
          let r := randomAttempts draws fetch (k + 1) fuel
          (r.1, rid :: r.2)
      | .httpError c => (.httpErrorMsg c, [rid])
      | .retryableError =>
          let r := randomAttempts draws fetch (k + 1) fuel
          (r.1, rid :: r.2)
      | .unknownError => (.unknownErrorMsg, [rid])

def max_retries : Nat := 10

/-- `youshu_random_command` (lines 702-737): `if not latest_id` treats
both a missing and a zero latest id as failure to obtain one; otherwise
the bounded retry loop runs with `max_retries = 10`, and falling off the
loop yields the final give-up message (line 737). -/
def youshu_random_command (latest_id : Option Nat) (draws : Nat → Nat)
    (fetch : Nat → FetchOutcome) : RandomOutcome × List Nat :=
  match latest_id with
  | none => (.noLatestId, [])
  | some L =>
      if L = 0 then (.noLatestId, [])
      else randomAttempts draws fetch 0 max_retries

/-! ## Qidian canonical catalog and enrichment overlay

`QidianSource.search_book` (`sources/qidian_source.py` lines 16-56)
parses the embedded page-context JSON into ranked records.  The overlay
that consumes it is not part of the repository snapshot and is modelled
from the spec below. -/

structure QdRecord where
  bName : Option String := none
  bAuth : Option String := none
  bid : Option Nat := none
  deriving Repr, DecidableEq, Inhabited

structure QdBookRef where
  name : Option String := none
  author : Option String := none
  bid : Option Nat := none
  url : String := ""
  origin : String := "qidian"
  deriving Repr, DecidableEq, Inhabited

/-- `QidianSource.search_book` (lines 16-56): `resp` is the parsed
record list of the page-context script node (`none` models a missing
script node or a raised exception — both leave the accumulated record
list empty). -/
def QidianSource.search_book (resp : Option (List QdRecord)) : List QdBookRef :=
  match resp with
  | none => []
  | some records =>
      records.map fun r =>
        { name := r.bName
          author := r.bAuth
          bid := r.bid
          url := "https://m.qidian.com/book/" ++
            (match r.bid with | some b => toString b | none => "None") ++ "/"
          origin := "qidian" }

/-- The authoritative detail fields the overlay may copy from the
canonical catalog (spec §4.2). -/
structure QdDetails where
  author : Option String := none
  status : Option String := none
  category : Option String := none
  tags : List String := []
  word_count : Option String := none
  update_time : Option String := none
  last_chapter : Option String := none
  synopsis : Option String := none
  image_url : Option String := none
  popularity : Option String := none
  deriving Repr, DecidableEq, Inhabited

/-- Modelled from the spec: the enrichment-overlay merge (§4.2) is not
under `src/` (only its catalog query `QidianSource.search_book` is).
Per the spec it queries the canonical catalog by the primary Book's
title, considers only the first two ranked candidates, accepts a match
only on exact title equality, overlays the fixed field subset (author,
status, category, tags, word_count, update_time, last_chapter, synopsis,
cover image, popularity) while leaving `score`/`scorer` untouched, and
swallows every error (a failed candidate query or detail fetch leaves
the Book unchanged). -/
def enrichWithTitle (book : Book) (t : String)
    (catalog : String → Option (List QdRecord)) (details : Nat → Option QdDetails) : Book :=
  let candidates := (QidianSource.search_book (catalog t)).take 2
  match candidates.find? (fun c => c.name = some t) with
  | none => book
  | some c =>
      match c.bid with
      | none => book
      | some b =>
          match details b with
          | none => book
          | some d =>
              { book with
                author := d.author.orElse (fun _ => book.author)
                status := d.status.orElse (fun _ => book.status)
                category := d.category.orElse (fun _ => book.category)
                tags := if d.tags.isEmpty then book.tags else d.tags
                word_count := d.word_count.orElse (fun _ => book.word_count)
                update_time := d.update_time.orElse (fun _ => book.update_time)
                last_chapter := d.last_chapter.orElse (fun _ => book.last_chapter)
                synopsis := d.synopsis.orElse (fun _ => book.synopsis)
                image_url := d.image_url.orElse (fun _ => book.image_url)
                popularity := d.popularity.orElse (fun _ => book.popularity) }

def enrichBook (book : Book) (catalog : String → Option (List QdRecord))
    (details : Nat → Option QdDetails) : Book :=
  match book.title with
  | none => book
  | some t => enrichWithTitle book t catalog details

/-! ## Session state manager

Modelled from the spec: the session-state manager (§3 `UserSearchState`,
§4.3 `get_state` / `update_state` / `resolve_by_number`) is not under
`src/`.  The state map is a function from user id to an optional state;
`get_state` lazily defaults, `update_state` overwrites wholesale,
`resolve_by_number` rejects a `search_type` mismatch and an out-of-range
number. -/

structure CachedItem where
  id : String
  title : Option String := none
  author : Option String := none
  score : Option String := none
  scorer : Option String := none
  deriving Repr, DecidableEq, Inhabited

structure UserSearchState where
  keyword : String := ""
  current_page : Nat := 1
  max_pages : Nat := 1
  search_type : Option String := none
  results : List CachedItem := []
  deriving Repr, DecidableEq, Inhabited

def StateMap := String → Option UserSearchState

def get_state (m : StateMap) (user_id : String) : UserSearchState :=
  (m user_id).getD {}

def update_state (m : StateMap) (user_id : String) (keyword : String)
    (current_page max_pages : Nat) (search_type : String)
    (results : List CachedItem) : StateMap :=
  fun v => if v = user_id then
    some { keyword := keyword, current_page := current_page, max_pages := max_pages
           search_type := some search_type, results := results }
  else m v

def resolve_by_number (m : StateMap) (user_id : String) (number : Nat)
    (expected_search_type : String) : Option CachedItem :=
  let st := get_state m user_id
  if st.search_type = some expected_search_type then
    if 1 ≤ number ∧ number ≤ st.results.length then st.results[number - 1]?
    else none
  else none

/-! # Theorems -/

/-- `C1` counterexample: the claim asserts page size 20 in both search
domains, but the ys command under the default backend (`api = 1`) uses
page size 15, so item number 16 resolves to page 2, offset 0, not to the
claimed `(((16-1)/20)+1, (16-1)%20) = (1, 15)`. -/
theorem C1_counterexample :
    ys_resolve 1 16 = (2, 0) ∧ ys_resolve 1 16 ≠ ((16 - 1) / 20 + 1, (16 - 1) % 20) := by
  constructor <;> decide

/-- `C1` (amended): the resolver computes `((N-1) div P)+1` and
`(N-1) mod P` with the domain's own page size — `P = 20` for hs and for
ys with the `api = 2` backend, `P = 15` for ys with the default backend —
and with that `P` it is the left-inverse of
`(page, offset) ↦ page*P - P + offset + 1` whenever `1 ≤ page` and
`0 ≤ offset < P`. -/
theorem C1_resolver_left_inverse (api page offset : Nat) (hpage : 1 ≤ page) :
    (offset < 20 → hs_resolve (numOf 20 page offset) = (page, offset)) ∧
    (offset < ys_results_per_page api →
      ys_resolve api (numOf (ys_results_per_page api) page offset) = (page, offset)) := by
  have key : ∀ P, 0 < P → offset < P → resolve P (numOf P page offset) = (page, offset) := by
    intro P hP hoff
    have h1 : numOf P page offset - 1 = offset + (page - 1) * P := by
      unfold numOf
      have : P ≤ page * P := Nat.le_mul_of_pos_left P hpage
      have : (page - 1) * P = page * P - P := by
        rw [Nat.sub_mul, Nat.one_mul]
      omega
    unfold resolve
    rw [h1]
    refine Prod.ext ?_ ?_
    · show (offset + (page - 1) * P) / P + 1 = page
      rw [Nat.add_mul_div_right _ _ hP, Nat.div_eq_of_lt hoff]
      omega
    · show (offset + (page - 1) * P) % P = offset
      rw [Nat.add_mul_mod_self_right, Nat.mod_eq_of_lt hoff]
  refine ⟨fun h20 => ?_, fun hys => ?_⟩
  · exact key 20 (by omega) h20
  · have hP : 0 < ys_results_per_page api := by
      unfold ys_results_per_page; split <;> omega
    exact key _ hP hys

/-- Witness for `C1_resolver_left_inverse` at `api = 1`, `page = 2`,
`offset = 3`: item number `2*15 - 15 + 3 + 1 = 19` resolves to `(2, 3)`
in the ys domain, and item number `2*20 - 20 + 3 + 1 = 24` resolves to
`(2, 3)` in the hs domain. -/
theorem C1_resolver_left_inverse_witness :
    (1 ≤ 2) ∧ (3 < 20 → hs_resolve (numOf 20 2 3) = (2, 3)) ∧
      (3 < ys_results_per_page 1 →
        ys_resolve 1 (numOf (ys_results_per_page 1) 2 3) = (2, 3)) := by
  refine ⟨by decide, ?_, ?_⟩
  · exact (C1_resolver_left_inverse 1 2 3 (by decide)).1
  · exact (C1_resolver_left_inverse 1 2 3 (by decide)).2

lemma clean_val_of_missingOrSentinel {v : Option String} (h : missingOrSentinel v) :
    clean_val v = none := by
  rcases h with h | h | h | h | h | h <;> subst h <;> rfl

/-- `C2`: transport failures and total parse failures never escape the
adapter boundary as exceptions — for every page, book id and adapter,
they are converted to the absent value `None`: a failed hs search call
and a non-success hs search response yield no result; a failed ys search
call yields no result; a failed detail fetch/parse yields no book in
both adapters; and a ys detail parse that cannot recover the title
(`novel_name` missing or `'无'`) yields no book. -/
theorem C2_adapter_absorbs_failures (page : Nat) (book_id : String) :
    UaaSource.search page HsSearchResponse.fail = none ∧
    UaaSource.search page HsSearchResponse.jsonOther = none ∧
    YoushuSource.search page none = none ∧
    YoushuSource.get_book_details book_id YsDetails.fail = none ∧
    UaaSource.get_book_details book_id HsDetailOutcome.fail = none ∧
    (∀ info : YsNovelInfo, info.novel_name.getD "无" = "无" →
      YoushuSource.get_book_details book_id (YsDetails.parsed info) = none) := by
  refine ⟨rfl, rfl, rfl, rfl, rfl, fun info h => ?_⟩
  simp only [YoushuSource.get_book_details, if_pos h]

/-- Witness for `C2_adapter_absorbs_failures` at page 1, book id `"7"`,
and the empty parsed dict (whose `novel_name` defaults to `'无'`). -/
theorem C2_adapter_absorbs_failures_witness :
    (({} : YsNovelInfo).novel_name.getD "无" = "无") ∧
    YoushuSource.get_book_details "7" (YsDetails.parsed {}) = none :=
  ⟨rfl, (C2_adapter_absorbs_failures 1 "7").2.2.2.2.2 {} rfl⟩

/-- `C3` counterexample: a search that the upstream completes with zero
hits (the page is neither a result list nor a recognizable detail page)
gives the strategy result `([], 0)`, but `YoushuSource.search` returns
the absent value `None` for it — not a `SearchResult` with empty `books`
and `total_pages = 0`, and not a value distinct from the failure
result. -/
theorem C3_counterexample :
    YoushuMeStrategy.search (some YsSearchPage.otherPage) = some ([], 0) ∧
    YoushuSource.search 1 (some YsSearchPage.otherPage) = none ∧
    YoushuSource.search 1 (some YsSearchPage.otherPage) ≠
      some { books := [], total_pages := 0, current_page := 1 } ∧
    YoushuSource.search 1 (some YsSearchPage.otherPage) = YoushuSource.search 1 none := by
  refine ⟨rfl, rfl, by decide, rfl⟩

/-- `C3` (amended): the zero-hit/failure distinction exists one layer
below the adapter — the strategy returns `([], 0)` for an upstream
page with zero hits and `None` for a failed call, two distinct values —
but `YoushuSource.search` collapses both to `None`; the command handler
(which calls the strategy-level search directly) treats the zero-hit
result as "not found" and stops without attempting pagination or any
further fetch. -/
theorem C3_zero_hits (api page : Nat) (book_name : String)
    (fetch : String → Nat → Option (List YsRawBook × Nat))
    (hfetch : fetch book_name page = some ([], 0)) :
    YoushuMeStrategy.search (some YsSearchPage.otherPage) = some ([], 0) ∧
    YoushuMeStrategy.search none = none ∧
    (some ([], 0) : Option (List YsRawBook × Nat)) ≠ none ∧
    YoushuSource.search page (some YsSearchPage.otherPage) = none ∧
    ysCommand api fetch book_name page none =
      { outcome := .notFound, searched := [(book_name, page)], detailFetched := none } := by
  refine ⟨rfl, rfl, by decide, rfl, ?_⟩
  simp only [ysCommand, hfetch]
  rfl

/-- Witness for `C3_zero_hits` at `api = 2`, page 1, keyword `"abc"`,
with the constant zero-hit fetch oracle. -/
theorem C3_zero_hits_witness :
    ((fun (_ : String) (_ : Nat) => some (([] : List YsRawBook), 0)) "abc" 1
        = some ([], 0)) ∧
    ysCommand 2 (fun _ _ => some ([], 0)) "abc" 1 none =
      { outcome := .notFound, searched := [("abc", 1)], detailFetched := none } :=
  ⟨rfl, (C3_zero_hits 2 1 "abc" (fun _ _ => some ([], 0)) rfl).2.2.2.2⟩

/-- `C4` counterexample: a Book produced at the `UaaSource.search`
adapter boundary from a raw hit with no `authors` and no `score` key
stores the upstream-style placeholder texts `'未知作者'` and `'暂无'` in
its `author` and `score` fields instead of the absent marker `None`. -/
theorem C4_counterexample :
    (UaaSource.search 1
        (HsSearchResponse.jsonOk [{ id := some 5, title := some "X" }] 3)).map
      (fun sr => sr.books.map (fun b => (b.author, b.score)))
    = some [(some "未知作者", some "暂无")] := rfl

/-- `C4` (amended): sentinel/missing normalization holds at the
`get_book_details` boundary, independently per field —
`YoushuSource.get_book_details` maps each optional textual field that is
missing or carries one of the placeholders `'无'`, `'未知'`, `'N/A'`,
`'0'`, `''` to `None` via `clean_val`, and `UaaSource.get_book_details`
maps the `'无'` sentinel to `None` on author, score, status and synopsis
— while Books produced by `search` instead carry textual placeholder
defaults (`'未知书籍'`, `'未知作者'`, `'暂无'`, `'N/A'`, `'0'`) for
missing fields. -/
theorem C4_detail_normalization (book_id : String) (info : YsNovelInfo)
    (hinfo : HsNovelInfo) (hname : ¬ info.novel_name.getD "无" = "无") :
    (∃ bk, YoushuSource.get_book_details book_id (YsDetails.parsed info) = some bk ∧
      (missingOrSentinel info.author_name → bk.author = none) ∧
      (missingOrSentinel info.score → bk.score = none) ∧
      (missingOrSentinel info.scorer → bk.scorer = none) ∧
      (missingOrSentinel info.status → bk.status = none) ∧
      (missingOrSentinel info.platform → bk.platform = none) ∧
      (missingOrSentinel info.category → bk.category = none) ∧
      (missingOrSentinel info.update_time_str → bk.update_time = none) ∧
      (missingOrSentinel info.synopsis → bk.synopsis = none) ∧
      (missingOrSentinel info.link → bk.link = none)) ∧
    (∃ bk, UaaSource.get_book_details book_id (HsDetailOutcome.parsed hinfo) = some bk ∧
      (hinfo.author = "无" → bk.author = none) ∧
      (hinfo.score = "无" → bk.score = none) ∧
      (hinfo.status = "无" → bk.status = none) ∧
      (hinfo.intro = "无" → bk.synopsis = none)) := by
  constructor
  · simp only [YoushuSource.get_book_details, if_neg hname]
    exact ⟨_, rfl,
      fun h => clean_val_of_missingOrSentinel h,
      fun h => clean_val_of_missingOrSentinel h,
      fun h => clean_val_of_missingOrSentinel h,
      fun h => clean_val_of_missingOrSentinel h,
      fun h => clean_val_of_missingOrSentinel h,
      fun h => clean_val_of_missingOrSentinel h,
      fun h => clean_val_of_missingOrSentinel h,
      fun h => clean_val_of_missingOrSentinel h,
      fun h => clean_val_of_missingOrSentinel h⟩
  · refine ⟨_, rfl, fun h => ?_, fun h => ?_, fun h => ?_, fun h => ?_⟩ <;>
      simp only [if_pos h]

/-- Witness for `C4_detail_normalization`: a ys parsed dict whose
`author_name` is the sentinel `'无'` and whose `novel_name` is present
yields a Book with `author = None`. -/
theorem C4_detail_normalization_witness :
    (YoushuSource.get_book_details "9"
        (YsDetails.parsed { novel_name := some "T", author_name := some "无" })).map
      Book.author = some none := by
  obtain ⟨⟨bk, hbk, hauthor, -⟩, -⟩ :=
    C4_detail_normalization "9" { novel_name := some "T", author_name := some "无" } {}
      (by decide)
  rw [hbk]
  simp only [Option.map_some']
  rw [hauthor (Or.inr (Or.inl rfl))]

lemma selectStep_out_of_bounds {rs : List YsRawBook} {n i p : Nat}
    {s : List (String × Nat)} (h : rs.length ≤ i) :
    selectStep rs n i p s =
      { outcome := .itemMissing n p, searched := s, detailFetched := none } := by
  unfold selectStep
  rw [List.getElem?_eq_none h]

lemma idStep_hit {b : YsRawBook} {k : Nat} {s : List (String × Nat)}
    (hk : pyTruthyId b.id = some k) :
    idStep b s =
      { outcome := .detailShown (toString k), searched := s
        detailFetched := some (toString k) } := by
  unfold idStep
  rw [hk]

lemma selectStep_hit {rs : List YsRawBook} {n i p : Nat} {s : List (String × Nat)}
    {b : YsRawBook} {k : Nat} (hb : rs[i]? = some b) (hk : pyTruthyId b.id = some k) :
    selectStep rs n i p s =
      { outcome := .detailShown (toString k), searched := s
        detailFetched := some (toString k) } := by
  unfold selectStep
  rw [hb]
  exact idStep_hit hk

lemma idStep_searched (b : YsRawBook) (s : List (String × Nat)) :
    (idStep b s).searched = s := by
  unfold idStep
  cases pyTruthyId b.id <;> rfl

lemma selectStep_searched (rs : List YsRawBook) (n i p : Nat) (s : List (String × Nat)) :
    (selectStep rs n i p s).searched = s := by
  unfold selectStep
  cases h : rs[i]? with
  | none => rfl
  | some b => exact idStep_searched b s

/-- `C5`: a search command carrying an explicit page argument whose page
exceeds the reported (positive) `total_pages` is rejected with a
user-facing message after only the one fetch of that page — no
additional search fetch and no detail fetch is made — in both the ys and
the hs domains. -/
theorem C5_page_bound_rejection (api p m : Nat) (book_name : String)
    (f g : String → Nat → Option (List YsRawBook × Nat)) (bs bs' : List YsRawBook)
    (hf : f book_name p = some (bs, m)) (hbs : ¬ bs.isEmpty)
    (hg : g book_name p = some (bs', m)) (hbs' : ¬ bs'.isEmpty)
    (hm : 0 < m) (hpm : m < p) :
    ysCommand api f book_name p none =
      { outcome := .pageRejected p m, searched := [(book_name, p)], detailFetched := none } ∧
    hsCommand g book_name p none =
      { outcome := .pageRejected p m, searched := [(book_name, p)], detailFetched := none } := by
  constructor
  · simp only [ysCommand, reduceCtorEq, if_false, hf]
    rw [if_neg hbs, if_pos ⟨hpm, hm⟩]
  · simp only [hsCommand, hg]
    rw [if_neg hbs', if_pos ⟨hpm, hm⟩]

/-- Witness for `C5_page_bound_rejection`: an oracle reporting one book
and `total_pages = 2` at page 5 makes both commands reject page 5. -/
theorem C5_page_bound_rejection_witness :
    ysCommand 1 (fun _ _ => some ([{ id := some 3 }], 2)) "k" 5 none =
      { outcome := .pageRejected 5 2, searched := [("k", 5)], detailFetched := none } ∧
    hsCommand (fun _ _ => some ([{ id := some 3 }], 2)) "k" 5 none =
      { outcome := .pageRejected 5 2, searched := [("k", 5)], detailFetched := none } :=
  C5_page_bound_rejection 1 5 2 "k" (fun _ _ => some ([{ id := some 3 }], 2))
    (fun _ _ => some ([{ id := some 3 }], 2)) [{ id := some 3 }] [{ id := some 3 }]
    rfl (by decide) rfl (by decide) (by decide) (by decide)

lemma hsCommand_refetch_reduction (book_name : String)
    (f : String → Nat → Option (List YsRawBook × Nat)) (n m1 m2 : Nat)
    (bs1 bs2 : List YsRawBook)
    (hf1 : f book_name 1 = some (bs1, m1)) (hbs1 : ¬ bs1.isEmpty)
    (hcp : (hs_resolve n).1 ≠ 1)
    (hf2 : f book_name (hs_resolve n).1 = some (bs2, m2)) (hbs2 : ¬ bs2.isEmpty) :
    hsCommand f book_name 1 (some n) =
      selectStep bs2 n (hs_resolve n).2 (hs_resolve n).1
        [(book_name, 1), (book_name, (hs_resolve n).1)] := by
  have hpage : ¬ ((1 : Nat) > m1 ∧ m1 > 0) := by omega
  simp only [hsCommand, hf1]
  rw [if_neg hbs1, if_neg hpage, if_pos hcp]
  simp only [hf2]
  rw [if_neg hbs2]

/-- `C6`: selecting item `n` whose computed page differs from the page
currently fetched makes the hs handler re-fetch the computed page with
the same keyword before indexing; the book taken is the one at offset
`(n-1) mod 20` of the freshly fetched list, and a list shorter than
`offset+1` yields the "item does not exist" message instead of an
out-of-bounds access. -/
theorem C6_refetch_then_index (book_name : String)
    (f : String → Nat → Option (List YsRawBook × Nat)) (n m1 m2 : Nat)
    (bs1 bs2 : List YsRawBook)
    (hf1 : f book_name 1 = some (bs1, m1)) (hbs1 : ¬ bs1.isEmpty)
    (hcp : (hs_resolve n).1 ≠ 1)
    (hf2 : f book_name (hs_resolve n).1 = some (bs2, m2)) (hbs2 : ¬ bs2.isEmpty) :
    (hsCommand f book_name 1 (some n)).searched =
      [(book_name, 1), (book_name, (hs_resolve n).1)] ∧
    (bs2.length ≤ (hs_resolve n).2 →
      (hsCommand f book_name 1 (some n)).outcome = .itemMissing n (hs_resolve n).1) ∧
    (∀ b k, bs2[(hs_resolve n).2]? = some b → pyTruthyId b.id = some k →
      (hsCommand f book_name 1 (some n)).outcome = .detailShown (toString k) ∧
      (hsCommand f book_name 1 (some n)).detailFetched = some (toString k)) := by
  have hred := hsCommand_refetch_reduction book_name f n m1 m2 bs1 bs2 hf1 hbs1 hcp hf2 hbs2
  rw [hred]
  refine ⟨?_, fun hlen => ?_, fun b k hb hk => ?_⟩
  · exact selectStep_searched _ _ _ _ _
  · rw [selectStep_out_of_bounds hlen]
  · rw [selectStep_hit hb hk]
    exact ⟨rfl, rfl⟩

/-- Witness for `C6_refetch_then_index`: item 25 of a 2-page result
set; page 1 holds 20 dummy records, page 2 holds 5; the handler
re-fetches page 2 and shows the book at offset 4, whose id is 42. -/
theorem C6_refetch_then_index_witness :
    ((fun (_ : String) (p : Nat) =>
        if p = 1 then some (List.replicate 20 ({ id := some 1 } : YsRawBook), 2)
        else some ([{ id := some 11 }, { id := some 12 }, { id := some 13 },
          { id := some 14 }, { id := some 42 }], 2)) "Foo" 1
      = some (List.replicate 20 ({ id := some 1 } : YsRawBook), 2)) ∧
    (hsCommand (fun _ p =>
        if p = 1 then some (List.replicate 20 ({ id := some 1 } : YsRawBook), 2)
        else some ([{ id := some 11 }, { id := some 12 }, { id := some 13 },
          { id := some 14 }, { id := some 42 }], 2)) "Foo" 1 (some 25)).searched
      = [("Foo", 1), ("Foo", 2)] ∧
    (hsCommand (fun _ p =>
        if p = 1 then some (List.replicate 20 ({ id := some 1 } : YsRawBook), 2)
        else some ([{ id := some 11 }, { id := some 12 }, { id := some 13 },
          { id := some 14 }, { id := some 42 }], 2)) "Foo" 1 (some 25)).outcome
      = .detailShown "42" := by
  have h := C6_refetch_then_index "Foo"
    (fun _ p =>
      if p = 1 then some (List.replicate 20 ({ id := some 1 } : YsRawBook), 2)
      else some ([{ id := some 11 }, { id := some 12 }, { id := some 13 },
        { id := some 14 }, { id := some 42 }], 2)) 25 2 2
    (List.replicate 20 { id := some 1 })
    [{ id := some 11 }, { id := some 12 }, { id := some 13 },
      { id := some 14 }, { id := some 42 }]
    rfl (by decide) (by decide) rfl (by decide)
  exact ⟨rfl, h.1, (h.2.2 { id := some 42 } 42 rfl rfl).1⟩

/-- `C10`: a `/ys` keyword search without an item index whose fetched
page holds exactly one book with `total_pages = 1` jumps straight to
that book's detail view (one search fetch, then the detail fetch) and
renders no one-item list. -/
theorem C10_single_hit_jump (api : Nat) (book_name : String)
    (f : String → Nat → Option (List YsRawBook × Nat)) (b : YsRawBook) (k : Nat)
    (hf : f book_name 1 = some ([b], 1)) (hid : pyTruthyId b.id = some k) :
    ysCommand api f book_name 1 none =
      { outcome := .detailShown (toString k), searched := [(book_name, 1)]
        detailFetched := some (toString k) } := by
  simp only [ysCommand, reduceCtorEq, if_false, hf]
  have h1 : ¬ (([b] : List YsRawBook).isEmpty = true) := by simp
  have h2 : ¬ ((1 : Nat) > 1 ∧ (1 : Nat) > 0) := by omega
  rw [if_neg h1, if_neg h2, if_pos ⟨rfl, trivial⟩]
  rw [show ([b] : List YsRawBook).headI = b from rfl]
  exact idStep_hit hid

/-- Witness for `C10_single_hit_jump`: a single-hit oracle with book id
8 makes `/ys` jump straight to the detail view of book 8. -/
theorem C10_single_hit_jump_witness :
    ysCommand 1 (fun _ _ => some ([{ id := some 8 }], 1)) "k" 1 none =
      { outcome := .detailShown "8", searched := [("k", 1)], detailFetched := some "8" } :=
  C10_single_hit_jump 1 "k" (fun _ _ => some ([{ id := some 8 }], 1))
    { id := some 8 } 8 rfl rfl

lemma randomAttempts_length_le (draws : Nat → Nat) (fetch : Nat → FetchOutcome) :
    ∀ (fuel k : Nat), ((randomAttempts draws fetch k fuel).2).length ≤ fuel := by
  intro fuel
  induction fuel with
  | zero => intro k; simp [randomAttempts]
  | succ fuel ih =>
      intro k
      simp only [randomAttempts]
      cases h : fetch (draws k) with
      | success => simp
      | http404 => simpa using ih (k + 1)
      | httpError c => simp
      | retryableError => simpa using ih (k + 1)
      | unknownError => simp

lemma randomAttempts_mem (draws : Nat → Nat) (fetch : Nat → FetchOutcome) :
    ∀ (fuel k : Nat), ∀ x ∈ (randomAttempts draws fetch k fuel).2, ∃ j, x = draws j := by
  intro fuel
  induction fuel with
  | zero => intro k x hx; simp [randomAttempts] at hx
  | succ fuel ih =>
      intro k x hx
      simp only [randomAttempts] at hx
      cases h : fetch (draws k) <;> rw [h] at hx <;> simp at hx
      all_goals try exact ⟨k, hx⟩
      all_goals (rcases hx with hx | hx
                 · exact ⟨k, hx⟩
                 · exact ih (k + 1) x hx)

lemma randomAttempts_retry_only (draws : Nat → Nat) (fetch : Nat → FetchOutcome) :
    ∀ (fuel k i : Nat) (x : Nat),
      ((randomAttempts draws fetch k fuel).2)[i]? = some x →
      i + 1 < ((randomAttempts draws fetch k fuel).2).length →
      (fetch x).isRetry = true := by
  intro fuel
  induction fuel with
  | zero => intro k i x hx hlen; simp [randomAttempts] at hlen
  | succ fuel ih =>
      intro k i x hx hlen
      simp only [randomAttempts] at hx hlen
      cases h : fetch (draws k) <;> rw [h] at hx hlen <;> simp at hx hlen
      all_goals (cases i with
        | zero =>
            simp at hx
            rw [hx] at h
            rw [h]; rfl
        | succ i =>
            simp at hx
            exact ih (k + 1) i x hx (by simpa using hlen))

lemma randomAttempts_exhaust (draws : Nat → Nat) (fetch : Nat → FetchOutcome) :
    ∀ (fuel k : Nat), (∀ j, (fetch (draws j)).isRetry = true) →
      (randomAttempts draws fetch k fuel).1 = RandomOutcome.exhausted := by
  intro fuel
  induction fuel with
  | zero => intro k _; rfl
  | succ fuel ih =>
      intro k hall
      simp only [randomAttempts]
      cases h : fetch (draws k) with
      | success => exact absurd (h ▸ hall k) (by simp [FetchOutcome.isRetry])
      | http404 => exact ih (k + 1) hall
      | httpError c => exact absurd (h ▸ hall k) (by simp [FetchOutcome.isRetry])
      | retryableError => exact ih (k + 1) hall
      | unknownError => exact absurd (h ▸ hall k) (by simp [FetchOutcome.isRetry])

/-- `C7`: the random-novel command draws each candidate id through
`randint(1, latest_id)` — modelled by a draw oracle whose every value
lies in `[1, latest_id]` — makes at most `max_retries = 10` attempts,
retries only after an attempt whose fetch failed with a retryable
failure (HTTP 404, parse error or timeout), and when every attempt fails
that way it reports the final give-up message rather than retrying
further. -/
theorem C7_random_bounded_retry (latest : Nat) (draws : Nat → Nat)
    (fetch : Nat → FetchOutcome)
    (hdraws : ∀ k, 1 ≤ draws k ∧ draws k ≤ latest) (hL : latest ≠ 0) :
    ((youshu_random_command (some latest) draws fetch).2).length ≤ max_retries ∧
    (∀ x ∈ (youshu_random_command (some latest) draws fetch).2, 1 ≤ x ∧ x ≤ latest) ∧
    (∀ i x, ((youshu_random_command (some latest) draws fetch).2)[i]? = some x →
      i + 1 < ((youshu_random_command (some latest) draws fetch).2).length →
      (fetch x).isRetry = true) ∧
    ((∀ j, (fetch (draws j)).isRetry = true) →
      (youshu_random_command (some latest) draws fetch).1 = RandomOutcome.exhausted) := by
  have hrun : youshu_random_command (some latest) draws fetch =
      randomAttempts draws fetch 0 max_retries := by
    simp only [youshu_random_command]
    rw [if_neg hL]
  rw [hrun]
  refine ⟨randomAttempts_length_le draws fetch max_retries 0, fun x hx => ?_,
    fun i x hx hlen => randomAttempts_retry_only draws fetch max_retries 0 i x hx hlen,
    fun hall => randomAttempts_exhaust draws fetch max_retries 0 hall⟩
  obtain ⟨j, rfl⟩ := randomAttempts_mem draws fetch max_retries 0 x hx
  exact hdraws j

/-- Witness for `C7_random_bounded_retry`: `latest_id = 5`, every draw
is 3 and every fetch 404s; the command tries ten ids in `[1, 5]` and
gives up. -/
theorem C7_random_bounded_retry_witness :
    ((youshu_random_command (some 5) (fun _ => 3) (fun _ => FetchOutcome.http404)).2).length
      ≤ max_retries ∧
    (youshu_random_command (some 5) (fun _ => 3) (fun _ => FetchOutcome.http404)).1
      = RandomOutcome.exhausted := by
  have h := C7_random_bounded_retry 5 (fun _ => 3) (fun _ => FetchOutcome.http404)
    (fun _ => ⟨by simp, by simp⟩) (by decide)
  exact ⟨h.1, h.2.2.2 (fun _ => rfl)⟩

lemma enrichWithTitle_score_scorer (book : Book) (t : String)
    (catalog : String → Option (List QdRecord)) (details : Nat → Option QdDetails) :
    (enrichWithTitle book t catalog details).score = book.score ∧
    (enrichWithTitle book t catalog details).scorer = book.scorer := by
  simp only [enrichWithTitle]
  repeat' split
  all_goals exact ⟨rfl, rfl⟩

/-- `C8`: the enrichment overlay queries the canonical catalog
(`QidianSource.search_book`) by the primary Book's title and considers
only its first two ranked candidates; when no considered candidate's
title equals the queried title exactly, the Book is returned unmodified
— no partial overlay — and in every case the `score` and `scorer`
fields are left untouched by enrichment. -/
theorem C8_enrichment_exact_title_only (book : Book)
    (catalog : String → Option (List QdRecord)) (details : Nat → Option QdDetails) :
    (enrichBook book catalog details).score = book.score ∧
    (enrichBook book catalog details).scorer = book.scorer ∧
    (∀ t, book.title = some t →
      (∀ c ∈ (QidianSource.search_book (catalog t)).take 2, ¬ c.name = some t) →
      enrichBook book catalog details = book) := by
  refine ⟨?_, ?_, fun t ht hno => ?_⟩
  · unfold enrichBook
    cases book.title with
    | none => rfl
    | some t => exact (enrichWithTitle_score_scorer book t catalog details).1
  · unfold enrichBook
    cases book.title with
    | none => rfl
    | some t => exact (enrichWithTitle_score_scorer book t catalog details).2
  · unfold enrichBook
    rw [ht]
    show enrichWithTitle book t catalog details = book
    have hfind : (((QidianSource.search_book (catalog t)).take 2).find?
        (fun c => c.name = some t)) = none := by
      apply List.find?_eq_none.mpr
      intro c hc
      simpa using hno c hc
    simp only [enrichWithTitle, hfind]

/-- Witness for `C8_enrichment_exact_title_only`: the catalog returns
two candidates titled `"B"` and `"C"` for the query `"A"`; the Book
titled `"A"` is returned unmodified. -/
theorem C8_enrichment_exact_title_only_witness :
    (({ id := "1", title := some "A", score := some "8.4" } : Book).title = some "A") ∧
    enrichBook { id := "1", title := some "A", score := some "8.4" }
      (fun _ => some [{ bName := some "B", bid := some 10 },
        { bName := some "C", bid := some 11 }])
      (fun _ => some {}) =
      { id := "1", title := some "A", score := some "8.4" } := by
  refine ⟨rfl, ?_⟩
  exact (C8_enrichment_exact_title_only { id := "1", title := some "A", score := some "8.4" }
    (fun _ => some [{ bName := some "B", bid := some 10 },
      { bName := some "C", bid := some 11 }])
    (fun _ => some {})).2.2 "A" rfl (by decide)

/-- `C9`: after a state update that stores `search_type = A` for user
`u`, resolving any item number for `u` against a different expected
search type `B` yields the absent value, whatever the stored result
set. -/
theorem C9_cross_domain_isolation (m : StateMap) (u : String) (n : Nat)
    (keyword : String) (current_page max_pages : Nat) (A B : String)
    (results : List CachedItem) (hAB : A ≠ B) :
    resolve_by_number (update_state m u keyword current_page max_pages A results) u n B
      = none := by
  unfold resolve_by_number get_state update_state
  simp only [if_pos rfl, Option.getD_some]
  rw [if_neg (by simpa using hAB)]

/-- Witness for `C9_cross_domain_isolation`: a `"ys"`-typed stored state
never resolves under the expected type `"hs"`. -/
theorem C9_cross_domain_isolation_witness :
    ("ys" ≠ "hs") ∧
    resolve_by_number
      (update_state (fun _ => none) "u1" "kw" 1 3 "ys" [{ id := "5", title := some "T" }])
      "u1" 1 "hs" = none :=
  ⟨by decide, C9_cross_domain_isolation (fun _ => none) "u1" 1 "kw" 1 3 "ys" "hs"
    [{ id := "5", title := some "T" }] (by decide)⟩

end Youshu
